import Mathlib

/-!
Shallow embedding of the cartoon-video generation backend (`src/main.py`).

The repository is a FastAPI service with a single interesting endpoint,
`POST /api/generate` (`generate_video`), which

  * rejects requests whose scene list is empty (HTTP 400),
  * renders one shared avatar face PNG (`make_cartoon_face_png`),
  * for each scene: synthesizes narration (`synthesize_tts`), loads the
    audio to measure its length, computes the effective duration
    `max(scene.duration, audio.duration)` and composes a scene clip
    (`make_scene_clip`),
  * concatenates the clips and writes the final video under a
    title-derived, token-suffixed filename,
  * maps any exception raised inside its `try` block to HTTP 500 with
    detail `"Failed to generate video: " ++ message`, and
  * in a `finally` block best-effort deletes the avatar PNG.

External collaborators (PIL, gTTS, moviepy, the filesystem) are modelled
by an explicit environment of oracles (`Env`): each external call either
succeeds or raises with some message.  Python floats are modelled as `ℚ`;
`math.sin` and `math.pi` are modelled as parameters of the position
function, since both come from the external math library.  The asset
directory is modelled as the list of file names it contains.
-/

set_option autoImplicit false

namespace VideoGen

/-- Scene model from `src/main.py` lines 28-31: required Hindi text,
duration constrained by `Field(5.0, gt=1, le=60)`, optional mood
defaulting to `"happy"`. -/
structure Scene where
  text_hi : String
  duration : ℚ
  mood : Option String
  deriving DecidableEq, Repr

/-- Request model from `src/main.py` lines 34-36: optional title and a
list of scenes. -/
structure GenerateRequest where
  title : Option String
  scenes : List Scene
  deriving DecidableEq, Repr

/-- Pydantic validation of one `Scene` body.  `text_hi` maps to
`Option String` (`none` = field absent, which pydantic rejects since the
field is required; any string, empty included, is accepted).  `duration`
maps to `Option ℚ` (`none` = absent, default `5.0`; present values must
satisfy `1 < d ≤ 60`).  `mood` maps to `Option (Option String)` (`none` =
absent, default `"happy"`; `some none` = explicit JSON null, which
`Optional[str]` accepts). -/
def parseScene (text_hi : Option String) (duration : Option ℚ)
    (mood : Option (Option String)) : Option Scene :=
  match text_hi with
  | none => none
  | some t =>
      let d := duration.getD 5
      if 1 < d ∧ d ≤ 60 then some ⟨t, d, mood.getD (some "happy")⟩ else none

/-! ## Face renderer (`make_cartoon_face_png`, lines 92-119)

The drawing calls issued to PIL are embedded as a list of drawing
commands.  The function is only ever invoked with its default
`size=400` (and `mood="happy"` at the call site in `generate_video`),
so the geometry below is the source's arithmetic evaluated at
`size = 400`: `cx = cy = 400 // 2 = 200`, `r = int(400*0.45) = 180`,
`eye_r = 20`, `eye_y = 160`, `eye_dx = 60`. -/

/-- One PIL draw call, recording the arguments the source passes. -/
inductive DrawCmd where
  | ellipse (x0 y0 x1 y1 : Int) (fill : Option (Nat × Nat × Nat))
      (outline : Option (Nat × Nat × Nat)) (lineWidth : Nat)
  | arc (x0 y0 x1 y1 : Int) (startAngle endAngle : Int)
      (stroke : Nat × Nat × Nat) (lineWidth : Nat)
  | rectangle (x0 y0 x1 y1 : Int) (fill : Nat × Nat × Nat)
  deriving DecidableEq, Repr

/-- The mouth drawing call of `make_cartoon_face_png` (lines 110-114):
`mood == "sad"` draws the arc over box `(cx-80, cy+20, cx+80, cy+140)`
with angles 20..160, every other mood draws the arc over box
`(cx-80, cy+0, cx+80, cy+120)` with angles 200..340. -/
def mouthCmd (mood : String) : DrawCmd :=
  if mood = "sad" then
    .arc 120 220 280 340 20 160 (0, 0, 0) 5
  else
    .arc 120 200 280 320 200 340 (0, 0, 0) 5

/-- Full sequence of drawing commands issued by `make_cartoon_face_png`
at its default `size = 400`: face circle, two eyes, mood-dependent
mouth, hair rectangle. -/
def make_cartoon_face_png (mood : String) : List DrawCmd :=
  [ .ellipse 20 20 380 380 (some (255, 224, 189)) (some (0, 0, 0)) 4
  , .ellipse 120 140 160 180 (some (0, 0, 0)) none 0
  , .ellipse 220 140 260 180 (some (0, 0, 0)) none 0
  , mouthCmd mood
  , .rectangle 100 (-12) 300 68 (60, 40, 30) ]

/-- The start and end angle of an arc command, `none` for other
commands. -/
def arcAngles : DrawCmd → Option (Int × Int)
  | .arc _ _ _ _ s e _ _ => some (s, e)
  | _ => none

/-! ## Scene composer (`make_scene_clip`, lines 129-150)

The moviepy clip construction itself is an external effect (covered by
`Env.compose` in the pipeline model); its deterministic parameter
computations — the background color and the avatar position function —
are embedded here. -/

/-- Background color chosen by `make_scene_clip` (line 134):
light green `(240, 255, 240)` iff `mood == "happy"`, otherwise light
blue `(240, 240, 255)`. -/
def bg_color (mood : String) : Nat × Nat × Nat :=
  if mood = "happy" then (240, 255, 240) else (240, 240, 255)

/-- The avatar position function `pos_fn` of `make_scene_clip`
(lines 140-145).  `msin` and `mpi` stand for the external library's
`math.sin` and `math.pi`; `width = 1280`, `height = 720`, the avatar
is 400 px wide.  Returns
`((width - 400) * (0.5 + 0.4 * sin(2 * pi * (t / max duration 0.1))),
  height * 0.35)`. -/
def pos_fn (msin : ℚ → ℚ) (mpi : ℚ) (duration t : ℚ) : ℚ × ℚ :=
  ((1280 - 400) * (1/2 + 2/5 * msin (2 * mpi * (t / max duration (1/10)))),
   720 * (7/20))

/-- Python's `str or "cartoon_video"`: the default is substituted when
the title is `None` or the empty string (both falsy). -/
def titleOrDefault : Option String → String
  | none => "cartoon_video"
  | some s => if s = "" then "cartoon_video" else s

/-- Characters stripped by Python's `str.strip()` (ASCII whitespace). -/
def isPyWhitespace (c : Char) : Bool :=
  c = ' ' || c = '\t' || c = '\n' || c = '\r' || c = '\x0b' || c = '\x0c'

/-- Python's `str.strip()`: remove leading and trailing whitespace. -/
def pyStrip (s : String) : String :=
  ⟨((s.data.dropWhile isPyWhitespace).reverse.dropWhile isPyWhitespace).reverse⟩

/-- Python's `str.replace(" ", "_")`: every single space character is
replaced by one underscore (no run collapsing, other whitespace kept). -/
def pyReplaceSpace (s : String) : String :=
  ⟨s.data.map (fun c => if c = ' ' then '_' else c)⟩

/-- Output file name computed at lines 185-186:
`(req.title or "cartoon_video").strip().replace(" ", "_")` followed by
`"_" ++ token ++ ".mp4"`. -/
def outName (title : Option String) (token : String) : String :=
  pyReplaceSpace (pyStrip (titleOrDefault title)) ++ "_" ++ token ++ ".mp4"

/-- Name of the shared avatar image file (line 163). -/
def avatarFile (token : String) : String :=
  "avatar_" ++ token ++ ".png"

/-- Name of the narration audio file for scene `idx` (line 172). -/
def sceneAudioFile (token : String) (idx : Nat) : String :=
  "scene_" ++ token ++ "_" ++ toString idx ++ ".mp3"

/-! ## Request handler (`generate_video`, lines 153-210) -/

/-- Outcomes of the external calls performed by one request.  Each call
either succeeds (for `audioLen`, yielding the narration length in
seconds) or raises an exception carrying a message. -/
structure Env where
  render : Except String Unit
  tts : Nat → Except String Unit
  audioLen : Nat → Except String ℚ
  compose : Nat → ℚ → Except String Unit
  assemble : Except String Unit
  writeVideo : Except String Unit

/-- HTTP-level outcome of the handler: success payload, an
`HTTPException` with status and detail, or an exception that escaped
the handler unhandled. -/
inductive Response where
  | ok (video_url : String) (file_name : String)
  | httpError (status : Nat) (detail : String)
  | unhandled (msg : String)
  deriving DecidableEq, Repr

/-- Whether the response is an `HTTPException`. -/
def Response.isHttpError : Response → Bool
  | .httpError _ _ => true
  | _ => false

/-- The per-scene loop of `generate_video` (lines 170-182).  For each
scene, in order: synthesize narration (writing the audio file), load the
audio and read its length, compute the effective duration
`max sc.duration audioLen` (line 178), compose the clip with that
duration.  Returns the effective durations (in scene order, exactly the
durations handed to `make_scene_clip`) and the updated file store, or
the first exception's message together with the file store at the moment
it was raised. -/
def processScenes (env : Env) (token : String) :
    List Scene → Nat → List String → Except String (List ℚ) × List String
  | [], _, fs => (.ok [], fs)
  | sc :: rest, idx, fs =>
      match env.tts idx with
      | .error e => (.error e, fs)
      | .ok _ =>
          let fs1 := fs ++ [sceneAudioFile token idx]
          match env.audioLen idx with
          | .error e => (.error e, fs1)
          | .ok alen =>
              match env.compose idx (max sc.duration alen) with
              | .error e => (.error e, fs1)
              | .ok _ =>
                  match processScenes env token rest (idx + 1) fs1 with
                  | (.error e, fs2) => (.error e, fs2)
                  | (.ok durs, fs2) => (.ok (max sc.duration alen :: durs), fs2)

/-- The `try` block of `generate_video` (lines 169-203): run the scene
loop, concatenate, write the output file; any exception is converted to
`HTTPException(500, "Failed to generate video: " + str(e))`. -/
def tryBlock (env : Env) (token : String) (req : GenerateRequest)
    (fs : List String) : Response × List String :=
  match processScenes env token req.scenes 0 fs with
  | (.error e, fs1) => (.httpError 500 ("Failed to generate video: " ++ e), fs1)
  | (.ok _, fs1) =>
      match env.assemble with
      | .error e => (.httpError 500 ("Failed to generate video: " ++ e), fs1)
      | .ok _ =>
          let name := outName req.title token
          match env.writeVideo with
          | .error e => (.httpError 500 ("Failed to generate video: " ++ e), fs1)
          | .ok _ => (.ok ("/videos/" ++ name) name, fs1 ++ [name])

/-- The `finally` block (lines 204-210): delete the avatar file if it
exists, swallowing any deletion failure (`removeFails = true` models
`os.remove` raising). -/
def finallyCleanup (removeFails : Bool) (face : String)
    (fs : List String) : List String :=
  if removeFails then fs else fs.filter (fun f => f ≠ face)

/-- The handler `generate_video` (lines 153-210).  Empty scene list →
HTTP 400 before anything is written.  The avatar render (line 164)
happens before the `try` block: if it raises, the exception escapes the
handler unhandled and the `finally` cleanup never runs.  Otherwise the
`try` block runs and the `finally` block deletes the avatar file on
every exit path from it. -/
def generate_video (env : Env) (removeFails : Bool) (token : String)
    (req : GenerateRequest) (fs0 : List String) : Response × List String :=
  match req.scenes with
  | [] => (.httpError 400 "At least one scene is required", fs0)
  | _ :: _ =>
      match env.render with
      | .error e => (.unhandled e, fs0)
      | .ok _ =>
          let face := avatarFile token
          let r := tryBlock env token req (fs0 ++ [face])
          (r.1, finallyCleanup removeFails face r.2)

/-! ## Spec-side sanitizer (for refinement comparison only)

The specification describes the title sanitization as "any whitespace
run replaced with a single separator character".  The following
definitions follow the spec's words, not the source, so that the
source's sanitizer can be compared against them. -/

/-- Collapse maximal whitespace runs to a single underscore; the flag
records whether the previous character belonged to a whitespace run. -/
def collapseRuns : Bool → List Char → List Char
  | _, [] => []
  | inRun, c :: cs =>
      if isPyWhitespace c then
        (if inRun then [] else ['_']) ++ collapseRuns true cs
      else c :: collapseRuns false cs

/-- Sanitizer as the spec words it: strip, then replace every whitespace
run by one separator character. -/
def specSanitize (s : String) : String :=
  ⟨collapseRuns false (pyStrip s).data⟩

/-- Output file name as the spec words it. -/
def specOutName (title : Option String) (token : String) : String :=
  specSanitize (titleOrDefault title) ++ "_" ++ token ++ ".mp4"

/-! ## Concrete fixtures used to instantiate theorems -/

/-- A concrete valid scene. -/
def scene0 : Scene := ⟨"hi", 5, some "happy"⟩

/-- A concrete valid one-scene request. -/
def reqOne : GenerateRequest := ⟨none, [scene0]⟩

/-- Environment in which every external call succeeds; every narration
is 7 seconds long. -/
def envAllOk : Env :=
  ⟨.ok (), fun _ => .ok (), fun _ => .ok 7, fun _ _ => .ok (), .ok (), .ok ()⟩

/-- Environment in which the avatar render (PIL) raises. -/
def envRenderFail : Env := { envAllOk with render := .error "boom" }

/-- Environment in which narration synthesis (gTTS) raises. -/
def envTtsFail : Env := { envAllOk with tts := fun _ => .error "tts down" }

/-! ## Theorems -/

/-- Claim C4: a request whose scene list is empty is answered with the
fixed 400 message "At least one scene is required" and the file store is
returned unchanged — no avatar image, audio, or video file is created
before the rejection. -/
theorem empty_scenes_rejected_without_writes (env : Env) (removeFails : Bool)
    (token : String) (title : Option String) (fs0 : List String) :
    generate_video env removeFails token ⟨title, []⟩ fs0 =
      (.httpError 400 "At least one scene is required", fs0) := rfl

/-- Claim C5: the mouth drawn by `make_cartoon_face_png` is the
20°-160° downward arc exactly when the mood is "sad" (every other mood
gets the 200°-340° upward arc), while `make_scene_clip` picks the light
green background exactly when the mood is "happy" (every other mood
gets light blue); hence a third mood (neither "happy" nor "sad") gets
the happy mouth together with the non-happy background tint. -/
theorem mood_branch_inconsistency (mood : String) :
    mouthCmd mood ∈ make_cartoon_face_png mood ∧
    (arcAngles (mouthCmd mood) = some (20, 160) ↔ mood = "sad") ∧
    (arcAngles (mouthCmd mood) = some (200, 340) ↔ mood ≠ "sad") ∧
    (bg_color mood = (240, 255, 240) ↔ mood = "happy") ∧
    (bg_color mood = (240, 240, 255) ↔ mood ≠ "happy") ∧
    (mood ≠ "happy" → mood ≠ "sad" →
      arcAngles (mouthCmd mood) = some (200, 340) ∧
        bg_color mood = (240, 240, 255)) := by
  by_cases hs : mood = "sad" <;> by_cases hh : mood = "happy" <;>
    simp_all [mouthCmd, make_cartoon_face_png, arcAngles, bg_color]

/-- Witness for C5 at the third mood value "excited": happy mouth arc
but light blue background. -/
theorem mood_branch_inconsistency_witness :
    ("excited" ≠ "happy" ∧ "excited" ≠ "sad") ∧
    arcAngles (mouthCmd "excited") = some (200, 340) ∧
    bg_color "excited" = (240, 240, 255) :=
  ⟨⟨by decide, by decide⟩,
    (mood_branch_inconsistency "excited").2.2.2.2.2 (by decide) (by decide)⟩

/-- Claim C7 (counterexample): pydantic validation accepts a scene whose
narration text is the empty string — `text_hi: str` carries no
non-emptiness constraint — refuting "accepts a scene only if its
narration text is a non-empty string". -/
theorem parseScene_accepts_empty_text :
    parseScene (some "") (some 5) none = some ⟨"", 5, some "happy"⟩ ∧
    (parseScene (some "") (some 5) none).isSome = true := by
  constructor <;> decide

/-- Claim C7 (amended): validation accepts a scene exactly when the
(required, but possibly empty) text field is present and the requested
duration d satisfies 1 < d ≤ 60, with duration defaulting to 5 and mood
defaulting to "happy" when omitted. -/
theorem parseScene_spec (t : String) (d : ℚ) (m : Option (Option String)) :
    ((parseScene (some t) (some d) m).isSome ↔ 1 < d ∧ d ≤ 60) ∧
    parseScene none (some d) m = none ∧
    parseScene (some t) none none = some ⟨t, 5, some "happy"⟩ ∧
    parseScene (some t) (some d) none =
      (if 1 < d ∧ d ≤ 60 then some ⟨t, d, some "happy"⟩ else none) := by
  refine ⟨?_, rfl, ?_, ?_⟩
  · by_cases h : 1 < d ∧ d ≤ 60 <;> simp [parseScene, h]
  · simp only [parseScene, Option.getD_none, Option.getD_some]
    norm_num
  · by_cases h : 1 < d ∧ d ≤ 60 <;> simp [parseScene, h]

/-- Claim C8: the avatar position at time t is
`((width - avatarWidth) * (0.5 + 0.4 * sin(2 * pi * t / D)), 0.35 * height)`
where the oscillation denominator `D = max duration 0.1` is floored at
0.1 seconds, hence never zero even for a zero or tiny duration; the
vertical coordinate is the constant 252 = 0.35 * 720. -/
theorem pos_fn_formula (msin : ℚ → ℚ) (mpi duration t : ℚ) :
    pos_fn msin mpi duration t =
      ((1280 - 400) * (1/2 + 2/5 * msin (2 * mpi * t / max duration (1/10))),
        720 * (7/20)) ∧
    (1/10 : ℚ) ≤ max duration (1/10) ∧
    max duration (1/10) ≠ 0 ∧
    (720 * (7/20) : ℚ) = 252 := by
  refine ⟨?_, le_max_right _ _, ?_, by norm_num⟩
  · simp [pos_fn, mul_div_assoc]
  · have h : (0 : ℚ) < max duration (1/10) :=
      lt_of_lt_of_le (by norm_num) (le_max_right _ _)
    exact ne_of_gt h

/-- Claim C10: wherever the (externally supplied) sine value lies in
[-1, 1], the avatar's horizontal position lies in [88, 792] =
[0.1 * (1280 - 400), 0.9 * (1280 - 400)]; with the avatar 400 px wide
and the vertical position the constant 252, the avatar's bounding box
stays inside the 1280 x 720 frame for every duration and time. -/
theorem pos_fn_avatar_in_frame (msin : ℚ → ℚ) (mpi duration t : ℚ)
    (hb : |msin (2 * mpi * (t / max duration (1/10)))| ≤ 1) :
    88 ≤ (pos_fn msin mpi duration t).1 ∧
    (pos_fn msin mpi duration t).1 ≤ 792 ∧
    0 ≤ (pos_fn msin mpi duration t).1 ∧
    (pos_fn msin mpi duration t).1 + 400 ≤ 1280 ∧
    (pos_fn msin mpi duration t).2 = 252 ∧
    0 ≤ (pos_fn msin mpi duration t).2 ∧
    (pos_fn msin mpi duration t).2 + 400 ≤ 720 := by
  rw [abs_le] at hb
  obtain ⟨h1, h2⟩ := hb
  have hx : (pos_fn msin mpi duration t).1 =
      (1280 - 400) * (1/2 + 2/5 * msin (2 * mpi * (t / max duration (1/10)))) := rfl
  have hy : (pos_fn msin mpi duration t).2 = 720 * (7/20) := rfl
  rw [hx, hy]
  refine ⟨by linarith, by linarith, by linarith, by linarith,
    by norm_num, by norm_num, by norm_num⟩

/-- Witness for C10: with the sine oracle constantly 0, a zero duration
and t = 1, the horizontal position is within [88, 792]. -/
theorem pos_fn_avatar_in_frame_witness :
    |(fun _ : ℚ => (0 : ℚ)) (2 * 3 * ((1 : ℚ) / max 0 (1/10)))| ≤ 1 ∧
    (88 ≤ (pos_fn (fun _ => (0 : ℚ)) 3 0 1).1 ∧
      (pos_fn (fun _ => (0 : ℚ)) 3 0 1).1 ≤ 792 ∧
      0 ≤ (pos_fn (fun _ => (0 : ℚ)) 3 0 1).1 ∧
      (pos_fn (fun _ => (0 : ℚ)) 3 0 1).1 + 400 ≤ 1280 ∧
      (pos_fn (fun _ => (0 : ℚ)) 3 0 1).2 = 252 ∧
      0 ≤ (pos_fn (fun _ => (0 : ℚ)) 3 0 1).2 ∧
      (pos_fn (fun _ => (0 : ℚ)) 3 0 1).2 + 400 ≤ 720) :=
  ⟨by simp, pos_fn_avatar_in_frame (fun _ => 0) 3 0 1 (by simp)⟩

/-- Claim C6 (counterexample): on the title "a  b" (two spaces), the
code's sanitizer yields "a__b" — `.replace(" ", "_")` substitutes each
space — while replacing the whitespace run with a single separator
would yield "a_b"; the produced filename differs from the claimed one. -/
theorem outName_does_not_collapse_runs :
    outName (some "a  b") "tok" = "a__b_tok.mp4" ∧
    specOutName (some "a  b") "tok" = "a_b_tok.mp4" ∧
    outName (some "a  b") "tok" ≠ specOutName (some "a  b") "tok" := by
  refine ⟨by decide, by decide, by decide⟩

/-- Count of underscores after the per-character space substitution:
one per pre-existing underscore plus one per space (no collapsing). -/
theorem count_map_space (l : List Char) :
    (l.map (fun c => if c = ' ' then '_' else c)).count '_' =
      l.count '_' + l.count ' ' := by
  induction l with
  | nil => simp
  | cons c cs ih =>
      by_cases h : c = ' '
      · subst h
        simp [List.count_cons, ih]
        omega
      · by_cases hu : c = '_'
        · subst hu
          simp [List.count_cons, ih]
          omega
        · simp [List.count_cons, h, hu, ih]

/-- Claim C6 (amended): for a present, non-empty title the output
filename is the title stripped of leading and trailing whitespace with
every space character individually replaced by an underscore (length
preserved, no spaces remain, one underscore per original space — runs
are not collapsed), suffixed with "_token.mp4"; an absent title uses
the default base name "cartoon_video". -/
theorem outName_characterization (s token : String) (h : s ≠ "") :
    outName (some s) token =
      pyReplaceSpace (pyStrip s) ++ "_" ++ token ++ ".mp4" ∧
    outName none token = "cartoon_video_" ++ token ++ ".mp4" ∧
    (pyReplaceSpace (pyStrip s)).length = (pyStrip s).length ∧
    (∀ c ∈ (pyReplaceSpace (pyStrip s)).data, c ≠ ' ') ∧
    (pyReplaceSpace (pyStrip s)).data.count '_' =
      (pyStrip s).data.count '_' + (pyStrip s).data.count ' ' := by
  refine ⟨?_, ?_, ?_, ?_, ?_⟩
  · simp [outName, titleOrDefault, h]
  · have h2 : pyReplaceSpace (pyStrip (titleOrDefault none)) ++ "_" =
        "cartoon_video_" := by decide
    unfold outName
    rw [h2]
  · show (List.map (fun c => if c = ' ' then '_' else c)
        (pyStrip s).data).length = (pyStrip s).data.length
    exact List.length_map _ _
  · intro c hc
    have hc2 : c ∈ (pyStrip s).data.map
        (fun c => if c = ' ' then '_' else c) := hc
    obtain ⟨a, _, rfl⟩ := List.mem_map.mp hc2
    by_cases hsp : a = ' ' <;> simp [hsp]
  · exact count_map_space _

/-- Witness for C6 (amended) at title "My Title" and token "tok". -/
theorem outName_characterization_witness :
    ("My Title" : String) ≠ "" ∧
    outName (some "My Title") "tok" =
      pyReplaceSpace (pyStrip "My Title") ++ "_" ++ "tok" ++ ".mp4" ∧
    (pyReplaceSpace (pyStrip "My Title")).length =
      (pyStrip "My Title").length :=
  ⟨by decide, (outName_characterization "My Title" "tok" (by decide)).1,
    (outName_characterization "My Title" "tok" (by decide)).2.2.1⟩

/-- Claim C9: a non-empty title made only of whitespace is not replaced
by the default base name — Python's falsiness check only substitutes
"cartoon_video" for an absent title or the empty string — and stripping
reduces it to the empty string, so the filename is "_token.mp4". -/
theorem blank_title_used_verbatim (s token : String) (h1 : s ≠ "")
    (h2 : ∀ c ∈ s.data, isPyWhitespace c = true) :
    titleOrDefault (some s) = s ∧
    (pyStrip s).data = [] ∧
    outName (some s) token = "_" ++ token ++ ".mp4" ∧
    titleOrDefault none = "cartoon_video" ∧
    titleOrDefault (some "") = "cartoon_video" := by
  have hdrop : s.data.dropWhile isPyWhitespace = [] := by
    rw [List.dropWhile_eq_nil_iff]
    exact fun x hx => h2 x hx
  have hstrip : (pyStrip s).data = [] := by
    show ((s.data.dropWhile isPyWhitespace).reverse.dropWhile
      isPyWhitespace).reverse = []
    simp [hdrop]
  refine ⟨by simp [titleOrDefault, h1], hstrip, ?_, rfl, rfl⟩
  have hrep : pyReplaceSpace (pyStrip s) = "" := by
    apply String.ext
    show (pyStrip s).data.map (fun c => if c = ' ' then '_' else c) =
      ("" : String).data
    rw [hstrip]
    rfl
  unfold outName
  rw [show titleOrDefault (some s) = s from by simp [titleOrDefault, h1],
    hrep, show (("" : String) ++ "_") = "_" from by decide]

/-- Witness for C9 at the one-space title " " and token "t". -/
theorem blank_title_used_verbatim_witness :
    (" " : String) ≠ "" ∧
    titleOrDefault (some " ") = " " ∧
    outName (some " ") "t" = "_" ++ "t" ++ ".mp4" :=
  ⟨by decide, (blank_title_used_verbatim " " "t" (by decide) (by decide)).1,
    (blank_title_used_verbatim " " "t" (by decide) (by decide)).2.2.1⟩

/-- Claim C3: whenever the per-scene loop completes, the effective
duration used to build scene i's clip is exactly
max(requested scene duration, synthesized narration length); in
particular it is ≥ the requested duration and ≥ the narration length,
so narration is never truncated. -/
theorem processScenes_effective_duration (env : Env) (token : String)
    (scenes : List Scene) :
    ∀ (idx : Nat) (fs fs1 : List String) (durs : List ℚ),
      processScenes env token scenes idx fs = (.ok durs, fs1) →
      durs.length = scenes.length ∧
      ∀ (i : Nat) (sc : Scene), scenes[i]? = some sc →
        ∃ a : ℚ, env.audioLen (idx + i) = .ok a ∧
          durs[i]? = some (max sc.duration a) ∧
          sc.duration ≤ max sc.duration a ∧ a ≤ max sc.duration a := by
  induction scenes with
  | nil =>
      intro idx fs fs1 durs h
      simp only [processScenes, Prod.mk.injEq, Except.ok.injEq] at h
      obtain ⟨h1, h2⟩ := h
      subst h1
      exact ⟨rfl, by intro i sc hi; simp at hi⟩
  | cons sc rest ih =>
      intro idx fs fs1 durs h
      rcases htts : env.tts idx with e | u
      · simp [processScenes, htts] at h
      · rcases halen : env.audioLen idx with e | alen
        · simp [processScenes, htts, halen] at h
        · rcases hcomp : env.compose idx (max sc.duration alen) with e | v
          · simp [processScenes, htts, halen, hcomp] at h
          · rcases hrec : processScenes env token rest (idx + 1)
                (fs ++ [sceneAudioFile token idx]) with ⟨res, fs2⟩
            rcases res with e | dtail
            · simp [processScenes, htts, halen, hcomp, hrec] at h
            · simp only [processScenes, htts, halen, hcomp, hrec,
                Prod.mk.injEq, Except.ok.injEq] at h
              obtain ⟨h1, h2⟩ := h
              subst h1
              subst h2
              obtain ⟨ihlen, ihspec⟩ := ih (idx + 1) _ _ _ hrec
              constructor
              · simp [ihlen]
              · intro i sc2 hi
                cases i with
                | zero =>
                    rw [List.getElem?_cons_zero] at hi
                    injection hi with hi
                    subst hi
                    refine ⟨alen, ?_, by simp, le_max_left _ _,
                      le_max_right _ _⟩
                    simpa using halen
                | succ j =>
                    rw [List.getElem?_cons_succ] at hi
                    obtain ⟨a, ha, hd, hle1, hle2⟩ := ihspec j sc2 hi
                    refine ⟨a, ?_, by simpa using hd, hle1, hle2⟩
                    rw [show idx + (j + 1) = idx + 1 + j from by omega]
                    exact ha

/-- Witness for C3: one 5-second scene whose narration is 7 seconds
long gets effective duration max(5, 7) = 7. -/
theorem processScenes_effective_duration_witness :
    processScenes envAllOk "t" [scene0] 0 [] =
      (.ok [7], [sceneAudioFile "t" 0]) ∧
    ([(7 : ℚ)])[0]? = some (max scene0.duration 7) ∧
    scene0.duration ≤ max scene0.duration 7 := by
  have h := processScenes_effective_duration envAllOk "t" [scene0] 0 []
    [sceneAudioFile "t" 0] [7] rfl
  obtain ⟨a, ha, hd, hle1, hle2⟩ := h.2 0 scene0 (by decide)
  have hh : (Except.ok 7 : Except String ℚ) = .ok a := ha
  injection hh with hh
  subst hh
  exact ⟨rfl, hd, hle1⟩

/-- Claim C2: for every validated request the avatar file is absent
from the asset store on every completion path whenever the deletion
itself succeeds, and a failing deletion is swallowed — the response is
identical whether or not `os.remove` raises. -/
theorem avatar_cleanup (env : Env) (token : String) (req : GenerateRequest)
    (fs0 : List String) (hne : req.scenes ≠ [])
    (hfresh : avatarFile token ∉ fs0) :
    avatarFile token ∉ (generate_video env false token req fs0).2 ∧
    (generate_video env true token req fs0).1 =
      (generate_video env false token req fs0).1 := by
  obtain ⟨title, scenes⟩ := req
  cases scenes with
  | nil => exact absurd rfl hne
  | cons sc rest =>
      simp only [generate_video]
      rcases henv : env.render with e | u
      · exact ⟨by simpa using hfresh, rfl⟩
      · exact ⟨by simp [finallyCleanup, List.mem_filter], rfl⟩

/-- Witness for C2: a concrete all-success run deletes the avatar file
and the response does not depend on the deletion outcome. -/
theorem avatar_cleanup_witness :
    (reqOne.scenes ≠ [] ∧ avatarFile "t" ∉ ([] : List String)) ∧
    avatarFile "t" ∉ (generate_video envAllOk false "t" reqOne []).2 ∧
    (generate_video envAllOk true "t" reqOne []).1 =
      (generate_video envAllOk false "t" reqOne []).1 :=
  ⟨⟨by decide, by decide⟩,
    (avatar_cleanup envAllOk "t" reqOne [] (by decide) (by decide)).1,
    (avatar_cleanup envAllOk "t" reqOne [] (by decide) (by decide)).2⟩

/-- Claim C1 (counterexample): when the avatar render raises, the
exception escapes the handler unhandled — no `HTTPException` is
produced, so the response detail does not embed the message. -/
theorem render_failure_escapes_unhandled :
    (generate_video envRenderFail false "tok" reqOne []).1 =
      .unhandled "boom" ∧
    (generate_video envRenderFail false "tok" reqOne []).1.isHttpError =
      false := by
  exact ⟨rfl, rfl⟩

/-- Claim C1 (amended): exceptions raised inside the handler's `try`
block — narration synthesis or audio loading, scene composition, final
assembly, or the encoding write — are answered with HTTP 500 and detail
"Failed to generate video: " ++ message, a single generic failure not
classified by source; an exception during avatar rendering, by
contrast, escapes the handler unhandled, and an error-free run succeeds
with the output URL. -/
theorem generate_video_error_classification (env : Env) (rf : Bool)
    (token : String) (req : GenerateRequest) (fs0 : List String)
    (e : String) (hne : req.scenes ≠ []) :
    (env.render = .error e →
      (generate_video env rf token req fs0).1 = .unhandled e) ∧
    (env.render = .ok () →
      (processScenes env token req.scenes 0 (fs0 ++ [avatarFile token])).1 =
        .error e →
      (generate_video env rf token req fs0).1 =
        .httpError 500 ("Failed to generate video: " ++ e)) ∧
    (env.render = .ok () →
      (∃ durs, (processScenes env token req.scenes 0
          (fs0 ++ [avatarFile token])).1 = .ok durs) →
      env.assemble = .error e →
      (generate_video env rf token req fs0).1 =
        .httpError 500 ("Failed to generate video: " ++ e)) ∧
    (env.render = .ok () →
      (∃ durs, (processScenes env token req.scenes 0
          (fs0 ++ [avatarFile token])).1 = .ok durs) →
      env.assemble = .ok () →
      env.writeVideo = .error e →
      (generate_video env rf token req fs0).1 =
        .httpError 500 ("Failed to generate video: " ++ e)) ∧
    (env.render = .ok () →
      (∃ durs, (processScenes env token req.scenes 0
          (fs0 ++ [avatarFile token])).1 = .ok durs) →
      env.assemble = .ok () →
      env.writeVideo = .ok () →
      (generate_video env rf token req fs0).1 =
        .ok ("/videos/" ++ outName req.title token)
          (outName req.title token)) := by
  obtain ⟨title, scenes⟩ := req
  cases scenes with
  | nil => exact absurd rfl hne
  | cons sc rest =>
      refine ⟨?_, ?_, ?_, ?_, ?_⟩
      · intro hr
        simp [generate_video, hr]
      · intro hr hp
        rcases hps : processScenes env token (sc :: rest) 0
            (fs0 ++ [avatarFile token]) with ⟨res, fsx⟩
        rw [hps] at hp
        simp only at hp
        subst hp
        simp [generate_video, tryBlock, hr, hps]
      · intro hr hp ha
        obtain ⟨durs, hp⟩ := hp
        rcases hps : processScenes env token (sc :: rest) 0
            (fs0 ++ [avatarFile token]) with ⟨res, fsx⟩
        rw [hps] at hp
        simp only at hp
        subst hp
        simp [generate_video, tryBlock, hr, hps, ha]
      · intro hr hp ha hw
        obtain ⟨durs, hp⟩ := hp
        rcases hps : processScenes env token (sc :: rest) 0
            (fs0 ++ [avatarFile token]) with ⟨res, fsx⟩
        rw [hps] at hp
        simp only at hp
        subst hp
        simp [generate_video, tryBlock, hr, hps, ha, hw]
      · intro hr hp ha hw
        obtain ⟨durs, hp⟩ := hp
        rcases hps : processScenes env token (sc :: rest) 0
            (fs0 ++ [avatarFile token]) with ⟨res, fsx⟩
        rw [hps] at hp
        simp only at hp
        subst hp
        simp [generate_video, tryBlock, hr, hps, ha, hw]

/-- Witness for C1 (amended): a failing narration call yields HTTP 500
with the exception text embedded after the fixed prefix. -/
theorem generate_video_error_classification_witness :
    (reqOne.scenes ≠ [] ∧ envTtsFail.render = .ok () ∧
      (processScenes envTtsFail "tk" reqOne.scenes 0
        ([] ++ [avatarFile "tk"])).1 = .error "tts down") ∧
    (generate_video envTtsFail false "tk" reqOne []).1 =
      .httpError 500 ("Failed to generate video: " ++ "tts down") :=
  ⟨⟨by decide, rfl, rfl⟩,
    (generate_video_error_classification envTtsFail false "tk" reqOne []
        "tts down" (by decide)).2.1 rfl rfl⟩

end VideoGen
